import Mathlib

/-!
Shallow embedding of `.github/release_helper.py` (lawnicons release gate).

The script decides whether a release should be cut: it resolves the last
release tag, diffs the icons directory between HEAD and that tag, and applies
a day-of-month plus minimum-count threshold, overridable by a manual trigger.

Modelling conventions:
* `datetime.datetime.now().day` becomes an explicit `today_day : Nat` input.
* The process environment becomes an explicit `EnvVars` record.
* GitPython operations become explicit state passing over `GState`
  (the currently checked-out reference plus a trace of the references passed
  to `repo.git.checkout`, in call order).  Fallible operations return
  `Except GitErr`.  Per GitPython semantics, `repo.active_branch` and
  `repo.head.ref` raise `TypeError` when HEAD is detached, which the
  embedding renders as `Except.error GitErr.detachedHead`.
* Python's `set(a) - set(b)` turned into a list becomes
  `pySetDiff`: deduplicate, then keep the elements absent from `b`.
* Python's stable `sorted` becomes `List.insertionSort`, which is stable.
-/

namespace ReleaseHelper

/-- `NEW_THRESHOLD = 100` (module constant). -/
def NEW_THRESHOLD : Nat := 100

/-- `DAY_THRESHOLD = 1` (module constant). -/
def DAY_THRESHOLD : Nat := 1

/-- A git tag: its name and the committed timestamp of the commit it points
to (`t.commit.committed_datetime`, modelled as a `Nat`). -/
structure Tag where
  name : String
  time : Nat
deriving DecidableEq

/-- The sort key relation used by
`sorted(repo.tags, key=lambda t: t.commit.committed_datetime)`. -/
def tagLE (a b : Tag) : Prop := a.time ≤ b.time

instance : DecidableRel tagLE := fun a b => Nat.decLe a.time b.time

instance : IsTotal Tag tagLE := ⟨fun a b => Nat.le_total a.time b.time⟩

instance : IsTrans Tag tagLE := ⟨fun _ _ _ h1 h2 => Nat.le_trans h1 h2⟩

/-- `sorted(tags, key=lambda t: t.commit.committed_datetime)`: Python's
`sorted` is stable, as is insertion sort. -/
def sortTags (tags : List Tag) : List Tag := List.insertionSort tagLE tags

/-- Line 19: `sorted(git.Repo(REPOSITORY).tags, key=...)[-2].name`.
Python's `[-2]` raises `IndexError` when the list has fewer than two
elements, rendered here as `none`. -/
def last_release (tags : List Tag) : Option String :=
  let s := sortTags tags
  if 2 ≤ s.length then (s.get? (s.length - 2)).map Tag.name else none

/-- The two environment variables the script reads; `none` models an absent
variable. -/
structure EnvVars where
  github_event_name : Option String
  ci_pipeline_source : Option String

/-- `is_workflow_dispatch`: true iff `GITHUB_EVENT_NAME == "workflow_dispatch"`
or `CI_PIPELINE_SOURCE == "web"`. -/
def is_workflow_dispatch (e : EnvVars) : Bool :=
  if e.github_event_name = some "workflow_dispatch" ∨ e.ci_pipeline_source = some "web" then
    true
  else
    false

/-- `is_greenlight(result, manually_triggered, day_threshold, new_threshold)`,
with the ambient clock's day of month passed explicitly as `today_day`. -/
def is_greenlight (result : List String) (manually_triggered : Bool)
    (day_threshold : Nat) (new_threshold : Nat) (today_day : Nat) : Bool :=
  if manually_triggered then
    true
  else if today_day ≠ day_threshold then
    false
  else if result.length < new_threshold then
    false
  else
    true

/-- `exit(1 if not greenlight else 0)` where
`greenlight = is_greenlight(result, manual, DAY_THRESHOLD, NEW_THRESHOLD)`. -/
def driver_exit_code (result : List String) (manual : Bool) (today_day : Nat) : Nat :=
  if !(is_greenlight result manual DAY_THRESHOLD NEW_THRESHOLD today_day) then 1 else 0

/-- The state of HEAD in the working tree: attached to a branch, or detached
at some reference (commit, tag). -/
inductive Head where
  | branch (name : String)
  | detachedAt (ref : String)
deriving DecidableEq

/-- Faults the embedded script can raise. -/
inductive GitErr where
  | detachedHead
  | checkoutFault
  | listdirFault
  | tagIndexFault
deriving DecidableEq

/-- The immutable repository/filesystem environment: which reference names
`git checkout` accepts, which of those are branches, and the listing of the
`../svgs` directory as a function of the checked-out reference (`none` models
a missing directory, so `os.listdir` raises). -/
structure GEnv where
  refs : List String
  branches : List String
  icons : String → Option (List String)

/-- The mutable state: the currently checked-out reference, plus the trace of
references passed to `repo.git.checkout`, in call order. -/
structure GState where
  current : Head
  trace : List String

/-- The name of the reference HEAD currently points at. -/
def headName : Head → String
  | .branch n => n
  | .detachedAt r => r

/-- GitPython `repo.head.is_detached`: total, never raises. -/
def head_is_detached : Head → Bool
  | .branch _ => false
  | .detachedAt _ => true

/-- GitPython `repo.active_branch.name`: the branch name, or a `TypeError`
when HEAD is detached. -/
def active_branch_name : Head → Except GitErr String
  | .branch n => .ok n
  | .detachedAt _ => .error .detachedHead

/-- GitPython `repo.head.ref.name`: the branch name, or a `TypeError` when
HEAD is detached. -/
def head_ref_name : Head → Except GitErr String
  | .branch n => .ok n
  | .detachedAt _ => .error .detachedHead

/-- Line 52:
`original_ref = repo.active_branch.name if repo.head.is_detached else repo.head.ref.name`. -/
def record_original_ref (h : Head) : Except GitErr String :=
  if head_is_detached h then active_branch_name h else head_ref_name h

/-- `repo.git.checkout(r)`: the call is recorded on the trace; it succeeds
iff `r` is a checkable reference, attaching HEAD to `r` as a branch or
detaching it at `r`; on failure HEAD is unchanged. -/
def checkout_cmd (env : GEnv) (r : String) (st : GState) : Except GitErr Unit × GState :=
  let st' : GState := ⟨st.current, st.trace ++ [r]⟩
  if r ∈ env.refs then
    (.ok (), ⟨if r ∈ env.branches then .branch r else .detachedAt r, st'.trace⟩)
  else
    (.error .checkoutFault, st')

/-- The `git_checkout` context manager (lines 39–57), applied to a body.
Faithful to Python control flow: recording the original reference and the
checkout of `ref` happen before the `try`, so a fault there propagates
without running the `finally`; the `finally` re-checkout runs after the body
whether the body succeeds or raises, and a fault in the `finally` supersedes
the body's outcome. -/
def git_checkout {α : Type} (env : GEnv) (ref : String)
    (body : GState → Except GitErr α × GState) (st : GState) :
    Except GitErr α × GState :=
  match record_original_ref st.current with
  | .error e => (.error e, st)
  | .ok original_ref =>
    match checkout_cmd env ref st with
    | (.error e, st1) => (.error e, st1)
    | (.ok _, st1) =>
      let p := body st1
      let q := checkout_cmd env original_ref p.2
      match q.1 with
      | .error e => (.error e, q.2)
      | .ok _ => (p.1, q.2)

/-- `os.listdir(icons_dir)` at the current checkout state, wrapped in `set(...)`
by the callers; the raw listing is returned here. -/
def listdir_icons (env : GEnv) (st : GState) : Except GitErr (List String) × GState :=
  match env.icons (headName st.current) with
  | some l => (.ok l, st)
  | none => (.error .listdirFault, st)

/-- `list(set(cur) - set(prev))`: the distinct elements of `cur` that are not
in `prev`. -/
def pySetDiff (cur prev : List String) : List String :=
  cur.dedup.filter (fun x => decide (x ∉ prev))

/-- `get_new_icon_since(last_version)` (lines 60–79): list the icons directory
at the current state, then again with `last_version` temporarily checked out,
and return the set difference current-minus-previous. -/
def get_new_icon_since (env : GEnv) (last_version : String) (st : GState) :
    Except GitErr (List String) × GState :=
  match listdir_icons env st with
  | (.error e, st0) => (.error e, st0)
  | (.ok cur, st0) =>
    match git_checkout env last_version (listdir_icons env) st0 with
    | (.error e, st1) => (.error e, st1)
    | (.ok prev, st1) => (.ok (pySetDiff cur prev), st1)

/-- The module-level driver (lines 19 and 110–116): resolve the last release,
compute the new icons, classify the trigger, evaluate the greenlight with the
module thresholds, and exit.  An uncaught fault yields `Except.error`
(abnormal termination with non-zero status). -/
def main_driver (env : GEnv) (tags : List Tag) (e : EnvVars) (today_day : Nat)
    (st : GState) : Except GitErr Nat × GState :=
  match last_release tags with
  | none => (.error .tagIndexFault, st)
  | some lr =>
    match get_new_icon_since env lr st with
    | (.error er, st1) => (.error er, st1)
    | (.ok result, st1) =>
      (.ok (driver_exit_code result (is_workflow_dispatch e) today_day), st1)

/-- A concrete repository fixture used to evaluate the embedding: a `main`
branch whose icons directory holds three files, and a `v2.11.0` tag whose
icons directory holds one. -/
def demoEnv : GEnv where
  refs := ["main", "v2.11.0"]
  branches := ["main"]
  icons := fun r =>
    if r = "main" then some ["a.svg", "b.svg", "c.svg"]
    else if r = "v2.11.0" then some ["a.svg"]
    else none

/-- The strict version of the sort key relation, used to show that sorted
orders are unique when the commit timestamps are pairwise distinct. -/
def tagLT (a b : Tag) : Prop := a.time < b.time

instance : IsAntisymm Tag tagLT :=
  ⟨fun _ _ h1 h2 => absurd h2 (Nat.lt_asymm h1)⟩

/-- A list sorted by timestamp whose timestamps are pairwise distinct is
strictly sorted. -/
theorem sorted_tagLT_of_sorted_tagLE {l : List Tag} (hs : l.Sorted tagLE)
    (hnd : (l.map Tag.time).Nodup) : l.Sorted tagLT := by
  have hne : l.Pairwise (fun a b => a.time ≠ b.time) := by
    have := hnd
    rw [List.Nodup, List.pairwise_map] at this
    exact this
  exact (hs.and hne).imp (fun h => Nat.lt_of_le_of_ne h.1 h.2)

/-- Permuting the input does not change the sorted order when the timestamps
are pairwise distinct. -/
theorem sortTags_perm_invariant {tags tags' : List Tag} (hperm : tags'.Perm tags)
    (hnd : (tags.map Tag.time).Nodup) : sortTags tags' = sortTags tags := by
  have hp : (sortTags tags').Perm (sortTags tags) :=
    ((List.perm_insertionSort tagLE tags').trans hperm).trans
      (List.perm_insertionSort tagLE tags).symm
  have hnd1 : ((sortTags tags).map Tag.time).Nodup :=
    (((List.perm_insertionSort tagLE tags).map Tag.time).nodup_iff).mpr hnd
  have hnd2 : ((sortTags tags').map Tag.time).Nodup :=
    ((hp.map Tag.time).nodup_iff).mpr hnd1
  have hs1 : (sortTags tags).Sorted tagLE := List.sorted_insertionSort tagLE tags
  have hs2 : (sortTags tags').Sorted tagLE := List.sorted_insertionSort tagLE tags'
  exact List.eq_of_perm_of_sorted hp
    (sorted_tagLT_of_sorted_tagLE hs2 hnd2)
    (sorted_tagLT_of_sorted_tagLE hs1 hnd1)

/-! ### Theorems -/

/-- C1: with the manual-trigger flag false, `is_greenlight` returns true iff
the current day-of-month equals the day threshold and the number of new icons
is at least the count threshold; in particular a day mismatch gives false
regardless of count, and a matching day with a short list gives false. -/
theorem is_greenlight_auto_iff (result : List String)
    (day_threshold new_threshold today_day : Nat) :
    is_greenlight result false day_threshold new_threshold today_day = true ↔
      (today_day = day_threshold ∧ new_threshold ≤ result.length) := by
  unfold is_greenlight
  split_ifs with h0 h1 h2 <;> simp_all

/-- C2: with the manual-trigger flag true, `is_greenlight` returns true for
every icon list, day value and pair of thresholds, bypassing the day and
count checks. -/
theorem is_greenlight_manual_always_true (result : List String)
    (day_threshold new_threshold today_day : Nat) :
    is_greenlight result true day_threshold new_threshold today_day = true := by
  unfold is_greenlight
  simp

/-- C6: the driver evaluates the greenlight with the fixed thresholds
`DAY_THRESHOLD = 1` and `NEW_THRESHOLD = 100` and exits with code 0 iff the
decision is true, and with code 1 otherwise. -/
theorem driver_exit_code_spec (result : List String) (manual : Bool) (today_day : Nat) :
    (driver_exit_code result manual today_day = 0 ↔
      is_greenlight result manual 1 100 today_day = true) ∧
    (driver_exit_code result manual today_day = 1 ↔
      is_greenlight result manual 1 100 today_day = false) := by
  unfold driver_exit_code DAY_THRESHOLD NEW_THRESHOLD
  cases h : is_greenlight result manual 1 100 today_day <;> simp [h]

/-- C4 counterexample: the claim fails as stated.  With tied commit
timestamps the stable sort preserves input order, so the second-from-last
selection depends on the input ordering: the same two tags presented in the
two orders yield different last releases. -/
theorem last_release_order_dependent_cex :
    [Tag.mk "b" 5, Tag.mk "a" 5].Perm [Tag.mk "a" 5, Tag.mk "b" 5] ∧
    last_release [Tag.mk "a" 5, Tag.mk "b" 5] = some "a" ∧
    last_release [Tag.mk "b" 5, Tag.mk "a" 5] = some "b" :=
  ⟨List.Perm.swap (Tag.mk "a" 5) (Tag.mk "b" 5) [], rfl, rfl⟩

/-- C4 (amended): for every tag list of length ≥ 2 whose commit timestamps
are pairwise distinct, the resolver sorts ascending by timestamp and selects
the name of the second-from-last element, and the selection is invariant
under reordering of the input. -/
theorem last_release_second_from_last (tags tags' : List Tag)
    (hperm : tags'.Perm tags) (hlen : 2 ≤ tags.length)
    (hnd : (tags.map Tag.time).Nodup) :
    (sortTags tags).Sorted tagLE ∧
    sortTags tags' = sortTags tags ∧
    last_release tags' = ((sortTags tags).get? (tags.length - 2)).map Tag.name ∧
    last_release tags = ((sortTags tags).get? (tags.length - 2)).map Tag.name := by
  have hsl : (sortTags tags).length = tags.length :=
    (List.perm_insertionSort tagLE tags).length_eq
  have hse : sortTags tags' = sortTags tags := sortTags_perm_invariant hperm hnd
  have hix : tags.length - 2 < (sortTags tags).length := by omega
  have hval : last_release tags =
      ((sortTags tags).get? (tags.length - 2)).map Tag.name := by
    simp only [last_release]
    rw [if_pos (by omega : 2 ≤ (sortTags tags).length), hsl]
  refine ⟨List.sorted_insertionSort tagLE tags, hse, ?_, hval⟩
  have hval' : last_release tags' = last_release tags := by
    unfold last_release
    rw [hse]
  rw [hval', hval]

/-- Witness for C4: the claim's own scenario, tags `v2.10.0@1`, `v2.11.0@2`,
`nightly@3`, presented in a scrambled order, resolves to `v2.11.0`. -/
theorem last_release_second_from_last_witness :
    last_release [Tag.mk "nightly" 3, Tag.mk "v2.10.0" 1, Tag.mk "v2.11.0" 2] =
      some "v2.11.0" := by
  have h := last_release_second_from_last
      [Tag.mk "v2.10.0" 1, Tag.mk "v2.11.0" 2, Tag.mk "nightly" 3]
      [Tag.mk "nightly" 3, Tag.mk "v2.10.0" 1, Tag.mk "v2.11.0" 2]
      (by decide) (by decide) (by decide)
  rw [h.2.2.1]
  rfl

/-- C7: with fewer than two tags, the `[-2]` lookup of the tag resolver
fails (IndexError, modelled as `none`). -/
theorem last_release_short_fails (tags : List Tag) (h : tags.length < 2) :
    last_release tags = none := by
  have hl : (sortTags tags).length = tags.length :=
    (List.perm_insertionSort tagLE tags).length_eq
  have hlt : ¬ 2 ≤ (sortTags tags).length := by omega
  simp only [last_release]
  rw [if_neg hlt]

/-- Witness for C7: the empty tag list and a single-tag list both make the
lookup fail. -/
theorem last_release_short_fails_witness :
    ([] : List Tag).length < 2 ∧ last_release [] = none ∧
    [Tag.mk "nightly" 5].length < 2 ∧ last_release [Tag.mk "nightly" 5] = none :=
  ⟨by decide, last_release_short_fails [] (by decide),
   by decide, last_release_short_fails [Tag.mk "nightly" 5] (by decide)⟩

/-- C8 (evaluating the code at the failing input): line 52 takes the
`repo.active_branch.name` arm exactly when `repo.head.is_detached` holds, and
GitPython's `active_branch` raises `TypeError` on a detached HEAD, so the
recording step fails in the detached state instead of detecting it; on a
branch it records the branch name. -/
theorem record_original_ref_detached_raises :
    record_original_ref (Head.detachedAt "1a2b3c") = .error .detachedHead ∧
    record_original_ref (Head.branch "develop") = .ok "develop" :=
  ⟨rfl, rfl⟩

/-- C9: `is_workflow_dispatch` returns true iff `GITHUB_EVENT_NAME` equals
`workflow_dispatch` or `CI_PIPELINE_SOURCE` equals `web`; it is false in all
other cases, including when both variables are absent, and it is a total
function (never fails). -/
theorem is_workflow_dispatch_iff (e : EnvVars) :
    is_workflow_dispatch e = true ↔
      (e.github_event_name = some "workflow_dispatch" ∨
        e.ci_pipeline_source = some "web") := by
  unfold is_workflow_dispatch
  split_ifs with h <;> simp [h]

/-- C10: the greenlight decision depends on the icon list only through its
length: two lists of equal length yield the same decision for every flag,
thresholds and day (the embedding is a pure function, so the input list is
never modified). -/
theorem is_greenlight_length_only (r1 r2 : List String) (m : Bool)
    (day_threshold new_threshold today_day : Nat) (h : r1.length = r2.length) :
    is_greenlight r1 m day_threshold new_threshold today_day =
      is_greenlight r2 m day_threshold new_threshold today_day := by
  unfold is_greenlight
  rw [h]

/-- C3 counterexample: the claim fails as stated.  `repo.git.checkout(ref)`
sits before the `try`, so when the checkout of the target reference faults,
the error propagates with no restoration step: the trace shows the single
failed checkout call and no re-checkout of `main` (the working tree was
simply never moved). -/
theorem git_checkout_no_restore_on_fault_cex :
    (git_checkout demoEnv "v9.9.9" (listdir_icons demoEnv)
        (GState.mk (Head.branch "main") [])).1 =
      Except.error GitErr.checkoutFault ∧
    (git_checkout demoEnv "v9.9.9" (listdir_icons demoEnv)
        (GState.mk (Head.branch "main") [])).2.trace = ["v9.9.9"] ∧
    "main" ∉ (git_checkout demoEnv "v9.9.9" (listdir_icons demoEnv)
        (GState.mk (Head.branch "main") [])).2.trace :=
  ⟨rfl, rfl, by decide⟩

/-- C3 (amended): when the original reference is a checked-out branch that
remains checkable, every exit path of `git_checkout` leaves that branch
checked out afterwards; a fault in the body propagates only after the
restoration checkout executes (it is the last recorded checkout call); but
when the checkout of the target reference itself faults, the error
propagates without the restoration step running — the working tree is simply
still at the original reference. -/
theorem git_checkout_restores {α : Type} (env : GEnv) (ref : String)
    (body : GState → Except GitErr α × GState) (st : GState) (n : String)
    (hcur : st.current = Head.branch n) (hn : n ∈ env.refs)
    (hb : n ∈ env.branches) :
    (git_checkout env ref body st).2.current = Head.branch n ∧
    (ref ∉ env.refs →
      (git_checkout env ref body st).1 = Except.error GitErr.checkoutFault ∧
      (git_checkout env ref body st).2.trace = st.trace ++ [ref]) ∧
    (ref ∈ env.refs →
      (git_checkout env ref body st).1 = (body (checkout_cmd env ref st).2).1 ∧
      (git_checkout env ref body st).2.trace =
        (body (checkout_cmd env ref st).2).2.trace ++ [n]) := by
  by_cases h : ref ∈ env.refs
  · refine ⟨?_, fun hc => absurd h hc, fun _ => ⟨?_, ?_⟩⟩ <;>
      simp only [git_checkout, checkout_cmd, record_original_ref,
        head_is_detached, head_ref_name, hcur, if_pos h, if_pos hn, if_pos hb,
        Bool.false_eq_true, if_false]
  · refine ⟨?_, fun _ => ⟨?_, ?_⟩, fun hc => absurd hc h⟩ <;>
      simp only [git_checkout, checkout_cmd, record_original_ref,
        head_is_detached, head_ref_name, hcur, if_neg h,
        Bool.false_eq_true, if_false]

/-- Witness for C3 (amended): on the fixture, checking out `v2.11.0` with a
listing body leaves `main` checked out afterwards, and the trace ends with
the restoration checkout of `main`. -/
theorem git_checkout_restores_witness :
    (GState.mk (Head.branch "main") []).current = Head.branch "main" ∧
    "main" ∈ demoEnv.refs ∧ "main" ∈ demoEnv.branches ∧
    (git_checkout demoEnv "v2.11.0" (listdir_icons demoEnv)
        (GState.mk (Head.branch "main") [])).2.current = Head.branch "main" ∧
    (git_checkout demoEnv "v2.11.0" (listdir_icons demoEnv)
        (GState.mk (Head.branch "main") [])).2.trace = ["v2.11.0", "main"] := by
  have h := git_checkout_restores demoEnv "v2.11.0" (listdir_icons demoEnv)
      (GState.mk (Head.branch "main") []) "main" rfl (by decide) (by decide)
  refine ⟨rfl, by decide, by decide, h.1, ?_⟩
  rw [(h.2.2 (by decide)).2]
  rfl

/-- C5: `get_new_icon_since` returns exactly the set difference of the
filenames in the icons directory at the pre-checkout working-tree state
minus those at the last-release reference. -/
theorem get_new_icon_since_spec (env : GEnv) (lv n : String) (st : GState)
    (cur prev : List String) (hcur : st.current = Head.branch n)
    (hic : env.icons n = some cur) (hip : env.icons lv = some prev)
    (hlv : lv ∈ env.refs) (hn : n ∈ env.refs) :
    (get_new_icon_since env lv st).1 = Except.ok (pySetDiff cur prev) ∧
    ∀ x, x ∈ pySetDiff cur prev ↔ (x ∈ cur ∧ x ∉ prev) := by
  constructor
  · by_cases hlvb : lv ∈ env.branches
    · simp only [get_new_icon_since, listdir_icons, git_checkout, checkout_cmd,
        record_original_ref, head_is_detached, head_ref_name, headName, hcur,
        hic, hip, if_pos hlv, if_pos hn, if_pos hlvb, Bool.false_eq_true,
        if_false]
    · simp only [get_new_icon_since, listdir_icons, git_checkout, checkout_cmd,
        record_original_ref, head_is_detached, head_ref_name, headName, hcur,
        hic, hip, if_pos hlv, if_pos hn, if_neg hlvb, Bool.false_eq_true,
        if_false]
  · intro x
    simp only [pySetDiff, List.mem_filter, List.mem_dedup, decide_eq_true_eq]

/-- Witness for C5: the claim's own scenario on the fixture — current icons
`{a.svg, b.svg, c.svg}`, icons at `v2.11.0` `{a.svg}` — yields
`{b.svg, c.svg}` with count 2. -/
theorem get_new_icon_since_spec_witness :
    (get_new_icon_since demoEnv "v2.11.0" (GState.mk (Head.branch "main") [])).1 =
      Except.ok ["b.svg", "c.svg"] ∧
    (pySetDiff ["a.svg", "b.svg", "c.svg"] ["a.svg"]).length = 2 := by
  have h := get_new_icon_since_spec demoEnv "v2.11.0" "main"
      (GState.mk (Head.branch "main") []) ["a.svg", "b.svg", "c.svg"] ["a.svg"]
      rfl rfl rfl (by decide) (by decide)
  exact ⟨by rw [h.1]; rfl, rfl⟩

/-- Witness for C10: two distinct singleton lists produce the same decision. -/
theorem is_greenlight_length_only_witness :
    (["a.svg"] : List String).length = (["b.svg"] : List String).length ∧
    is_greenlight ["a.svg"] false 1 100 1 = is_greenlight ["b.svg"] false 1 100 1 :=
  ⟨rfl, is_greenlight_length_only ["a.svg"] ["b.svg"] false 1 100 1 rfl⟩

end ReleaseHelper
